import Mathlib

/-!
Shallow embedding of the session/credential management core of the
lost-at-cornell backend (src/db.py, src/users_dao.py, src/app.py).

Modelling conventions:
  - Time is an explicit natural number of seconds; `datetime.datetime.now()`
    becomes an explicit `now` parameter and `datetime.timedelta(days=1)` is
    the constant `oneDay = 86400`.
  - The SQLAlchemy user table is a `List User` in insertion order;
    `Query.filter(...).first()` is `List.find?`, and committing a mutation of
    a loaded row is `update_user` (replace the row with the matching id).
  - Token generation (`User._urlsafe_base_64`, sha1 over `os.urandom(64)`)
    is nondeterministic; operations that generate tokens take the generated
    strings as explicit parameters.
  - Python code that can raise is modelled with `Except String`, the error
    carrying the exception message; an uncaught exception at route level is
    the `Resp.serverError` outcome (Flask's 500 page).
-/

/-- Length of `datetime.timedelta(days=1)` in seconds (db.py line 69). -/
def oneDay : Nat := 86400

/-- Model of a stored password digest.  `bcryptDigest` is the idealized model
of `bcrypt.hashpw(pw, bcrypt.gensalt(rounds=cost))`: a well-formed bcrypt
digest records the cost, the salt and (abstractly, via the one-way function)
the password it was derived from.  `malformed` is any stored byte string that
is not valid bcrypt output. -/
inductive Digest where
  | bcryptDigest (cost salt : Nat) (pw : String)
  | malformed (raw : String)
deriving DecidableEq

/-- Model of the bcrypt library function `bcrypt.hashpw`. -/
def bcrypt.hashpw (password : String) (cost salt : Nat) : Digest :=
  Digest.bcryptDigest cost salt password

/-- Model of the bcrypt library function `bcrypt.checkpw`.  On a well-formed
digest it reports whether the password matches (idealized: bcrypt digests
determine their password exactly).  On a digest that is not valid bcrypt
output the real library raises `ValueError("Invalid salt")` instead of
returning a boolean, which the model renders as `Except.error`. -/
def bcrypt.checkpw (password : String) (digest : Digest) : Except String Bool :=
  match digest with
  | Digest.bcryptDigest _ _ pw => Except.ok (password == pw)
  | Digest.malformed _ => Except.error "Invalid salt"

/-- The `User` model of db.py (identity fields plus the single embedded
session triple; relationship fields such as posts and conversations are out
of the authentication core's scope). -/
structure User where
  id : Nat
  name : String
  username : String
  email : String
  password_digest : Digest
  session_token : String
  session_expiration : Nat
  refresh_token : String
deriving DecidableEq

/-- Method `User.renew_session` of db.py lines 63-69: overwrite both tokens
with freshly generated values (`st`, `rt`) and reset the expiration to one
day from now. -/
def User.renew_session (u : User) (st rt : String) (now : Nat) : User :=
  { u with session_token := st, refresh_token := rt,
           session_expiration := now + oneDay }

/-- Method `User.verify_password` of db.py lines 71-75:
`bcrypt.checkpw(password.encode("utf8"), self.password_digest)` with no
exception handling around it. -/
def User.verify_password (u : User) (password : String) : Except String Bool :=
  bcrypt.checkpw password u.password_digest

/-- Method `User.verify_session_token` of db.py lines 77-81:
`session_token == self.session_token and datetime.datetime.now() < self.session_expiration`. -/
def User.verify_session_token (u : User) (session_token : String) (now : Nat) : Bool :=
  session_token == u.session_token && decide (now < u.session_expiration)

/-- Method `User.verify_refresh_token` of db.py lines 83-87. -/
def User.verify_refresh_token (u : User) (refresh_token : String) : Bool :=
  refresh_token == u.refresh_token

/-- Constructor `User.__init__` of db.py lines 47-55: set the identity
fields, hash the password with a fresh salt, then issue the initial token
pair via `renew_session`. -/
def User.init (id : Nat) (name username email password : String)
    (cost salt : Nat) (st rt : String) (now : Nat) : User :=
  User.renew_session
    { id := id, name := name, username := username, email := email,
      password_digest := bcrypt.hashpw password cost salt,
      session_token := "", session_expiration := 0, refresh_token := "" }
    st rt now

/-- DAO `get_user_by_username` (users_dao.py lines 10-14):
`User.query.filter(User.username == username).first()`. -/
def get_user_by_username (db : List User) (username : String) : Option User :=
  db.find? (fun u => u.username == username)

/-- DAO `get_user_by_session_token` (users_dao.py lines 16-20). -/
def get_user_by_session_token (db : List User) (session_token : String) : Option User :=
  db.find? (fun u => u.session_token == session_token)

/-- DAO `get_user_by_refresh_token` (users_dao.py lines 22-26). -/
def get_user_by_refresh_token (db : List User) (refresh_token : String) : Option User :=
  db.find? (fun u => u.refresh_token == refresh_token)

/-- DAO `verify_credentials` (users_dao.py lines 28-36): `(False, None)` when
no user has the username, otherwise `(user.verify_password(password), user)`;
`verify_password` can raise, which propagates. -/
def verify_credentials (db : List User) (username password : String) :
    Except String (Bool × Option User) :=
  match get_user_by_username db username with
  | none => Except.ok (false, none)
  | some u =>
    match u.verify_password password with
    | Except.error e => Except.error e
    | Except.ok b => Except.ok (b, some u)

/-- Committing the insertion of a new row under the schema of db.py: both
`username` (line 34) and `email` (line 35) carry a unique constraint, so the
INSERT raises `IntegrityError` when either value is already present, leaving
the table unchanged; otherwise the row is appended. -/
def commit_insert (db : List User) (u : User) : Except String (List User) :=
  if db.any (fun v => v.username == u.username || v.email == u.email) then
    Except.error "IntegrityError"
  else
    Except.ok (db ++ [u])

/-- Committing a mutation of a loaded user row: the row with the user's id is
replaced.  The session columns carry no unique constraint (db.py lines
43-45), so this commit cannot raise. -/
def update_user (db : List User) (uid : Nat) (u2 : User) : List User :=
  db.map (fun v => if v.id == uid then u2 else v)

/-- DAO `create_user` (users_dao.py lines 38-55): a pre-check on the username
returns `(False, existing_user)` without touching the store; otherwise the
new user is constructed and committed (the commit can raise on a duplicate
email, which propagates to the caller). -/
def create_user (db : List User) (freshId : Nat)
    (name username email password : String) (cost salt : Nat)
    (st rt : String) (now : Nat) : Except String (Bool × User × List User) :=
  match get_user_by_username db username with
  | some possible_user => Except.ok (false, possible_user, db)
  | none =>
    match commit_insert db (User.init freshId name username email password cost salt st rt now) with
    | Except.error e => Except.error e
    | Except.ok db2 =>
      Except.ok (true, User.init freshId name username email password cost salt st rt now, db2)

/-- DAO `renew_session` (users_dao.py lines 57-66): look the user up by
refresh token, raise `Exception("Invalid refresh token")` when absent,
otherwise renew the user's session and commit. -/
def users_dao.renew_session (db : List User) (refresh_token : String)
    (st rt : String) (now : Nat) : Except String (User × List User) :=
  match get_user_by_refresh_token db refresh_token with
  | none => Except.error "Invalid refresh token"
  | some possible_user =>
    Except.ok (User.renew_session possible_user st rt now,
      update_user db possible_user.id (User.renew_session possible_user st rt now))

/-- Result of `extract_token` (app.py lines 19-30): the missing-header and
malformed-header failures, or the extracted token characters. -/
inductive ExtractResult where
  | missingHeader
  | malformedHeader
  | token (t : List Char)
deriving DecidableEq

/-- Whitespace predicate used by Python's `str.strip()` (restricted to the
ASCII whitespace characters, the only ones the claims involve). -/
def pyIsSpace (c : Char) : Bool :=
  c == ' ' || c == '\t' || c == '\n' || c == '\r' || c == '\x0B' || c == '\x0C'

/-- Python `str.strip()`: drop leading and trailing whitespace. -/
def stripChars (s : List Char) : List Char :=
  (((s.dropWhile pyIsSpace).reverse).dropWhile pyIsSpace).reverse

/-- Fuel-indexed worker for Python's `str.replace(pat, "")`: scan left to
right, and at each position either skip a non-overlapping occurrence of the
pattern or keep the character.  The fuel (instantiated to the length of the
scanned string, enough for any non-empty pattern) only makes the recursion
structural. -/
def replaceAllAux (pat : List Char) : Nat → List Char → List Char
  | _, [] => []
  | 0, s => s
  | fuel + 1, c :: rest =>
    if pat.isPrefixOf (c :: rest) then
      replaceAllAux pat fuel ((c :: rest).drop pat.length)
    else
      c :: replaceAllAux pat fuel rest

/-- Python's `s.replace(pat, "")`: remove every non-overlapping occurrence of
`pat` from `s`, scanning left to right. -/
def replaceAll (pat s : List Char) : List Char :=
  replaceAllAux pat s.length s

/-- The literal string `"Bearer"` removed by `extract_token`. -/
def bearerPat : List Char := ['B', 'e', 'a', 'r', 'e', 'r']

/-- Helper `extract_token` of app.py lines 19-30: `None` header yields the
missing-header error; otherwise every occurrence of the substring `"Bearer"`
is removed (`auth_header.replace("Bearer", "")`) and the result stripped of
surrounding whitespace; an empty remainder yields the malformed-header error
and anything else is returned as the token. -/
def extract_token (authHeader : Option (List Char)) : ExtractResult :=
  match authHeader with
  | none => ExtractResult.missingHeader
  | some auth_header =>
    let bearer_token := stripChars (replaceAll bearerPat auth_header)
    if bearer_token.isEmpty then ExtractResult.malformedHeader
    else ExtractResult.token bearer_token

/-- Body of a successful JSON response (only the shapes the authentication
routes produce). -/
inductive RespBody where
  | tokens (session_token : String) (session_expiration : Nat) (refresh_token : String)
  | message (m : String)
  | userData (u : User)
deriving DecidableEq

/-- Observable HTTP response of a route: a success body with its status code,
a `failure_response` JSON error with its status code (app.py lines 38-42;
note the `extract_token` error strings are returned bare by the routes and
therefore carry Flask's implicit status 200), or an uncaught exception
(Flask's 500). -/
inductive Resp where
  | success (body : RespBody) (code : Nat)
  | failure (msg : String) (code : Nat)
  | serverError (e : String)
deriving DecidableEq

/-- Discriminator: is this response a `failure_response` with the given
status code? -/
def Resp.isFailureWithCode (r : Resp) (c : Nat) : Bool :=
  match r with
  | Resp.failure _ code => code == c
  | _ => false

/-- Route `register_user` (app.py lines 48-68): a 400 "Invalid body" when any
of the four fields is absent, a 400 "User already exists" when `create_user`
reports an existing username, otherwise a 201 with the token triple.  An
exception escaping `create_user` (duplicate email at commit) is uncaught. -/
def app.register_user (db : List User) (freshId cost salt : Nat)
    (st rt : String) (now : Nat)
    (name username email password : Option String) : Resp × List User :=
  match name, username, email, password with
  | some name, some username, some email, some password =>
    match create_user db freshId name username email password cost salt st rt now with
    | Except.error e => (Resp.serverError e, db)
    | Except.ok (false, _, db2) => (Resp.failure "User already exists" 400, db2)
    | Except.ok (true, user, db2) =>
      (Resp.success (RespBody.tokens user.session_token user.session_expiration user.refresh_token) 201, db2)
  | _, _, _, _ => (Resp.failure "Invalid body" 400, db)

/-- Route `login` (app.py lines 70-92): 400 "Invalid body" on a missing
field, 400 "Invalid credentials" when `verify_credentials` fails, otherwise
renew the session, commit and return the fresh triple with status 200.  An
exception escaping `verify_credentials` is uncaught. -/
def app.login (db : List User) (st rt : String) (now : Nat)
    (username password : Option String) : Resp × List User :=
  match username, password with
  | some username, some password =>
    match verify_credentials db username password with
    | Except.error e => (Resp.serverError e, db)
    | Except.ok (false, _) => (Resp.failure "Invalid credentials" 400, db)
    | Except.ok (true, some user) =>
      (Resp.success
        (RespBody.tokens st ((User.renew_session user st rt now).session_expiration) rt) 200,
       update_user db user.id (User.renew_session user st rt now))
    | Except.ok (true, none) => (Resp.serverError "AttributeError", db)
  | _, _ => (Resp.failure "Invalid body" 400, db)

/-- Route `logout` (app.py lines 94-109): pass `extract_token` failures
through (bare JSON string, implicit status 200); reject with the single
`failure_response("Invalid session token")` (default status 404) both when no
user owns the token and when `verify_session_token` fails; on success set
`session_expiration = datetime.datetime.now()` and commit. -/
def app.logout (db : List User) (authHeader : Option (List Char)) (now : Nat) :
    Resp × List User :=
  match extract_token authHeader with
  | ExtractResult.missingHeader => (Resp.failure "Missing Authorization header" 200, db)
  | ExtractResult.malformedHeader => (Resp.failure "Invalid Authorization header" 200, db)
  | ExtractResult.token ts =>
    match get_user_by_session_token db (String.mk ts) with
    | none => (Resp.failure "Invalid session token" 404, db)
    | some user =>
      if User.verify_session_token user (String.mk ts) now then
        (Resp.success (RespBody.message "You have been logged out") 200,
         update_user db user.id { user with session_expiration := now })
      else (Resp.failure "Invalid session token" 404, db)

/-- Route `renew_session` (app.py lines 111-130): pass `extract_token`
failures through; any exception from the DAO's `renew_session` is caught and
mapped to a 400 "Invalid refresh token"; on success return the fresh triple
with status 200. -/
def app.renew_session (db : List User) (authHeader : Option (List Char))
    (st rt : String) (now : Nat) : Resp × List User :=
  match extract_token authHeader with
  | ExtractResult.missingHeader => (Resp.failure "Missing Authorization header" 200, db)
  | ExtractResult.malformedHeader => (Resp.failure "Invalid Authorization header" 200, db)
  | ExtractResult.token ts =>
    match users_dao.renew_session db (String.mk ts) st rt now with
    | Except.error _ => (Resp.failure "Invalid refresh token" 400, db)
    | Except.ok (user, db2) =>
      (Resp.success (RespBody.tokens user.session_token user.session_expiration user.refresh_token) 200, db2)

/-- Route `delete_user` (app.py lines 193-209): the same authentication gate
as `logout` with the same uniform `failure_response("Invalid session token")`
rejection; on success the user row is deleted and its serialization
returned. -/
def app.delete_user (db : List User) (authHeader : Option (List Char)) (now : Nat) :
    Resp × List User :=
  match extract_token authHeader with
  | ExtractResult.missingHeader => (Resp.failure "Missing Authorization header" 200, db)
  | ExtractResult.malformedHeader => (Resp.failure "Invalid Authorization header" 200, db)
  | ExtractResult.token ts =>
    match get_user_by_session_token db (String.mk ts) with
    | none => (Resp.failure "Invalid session token" 404, db)
    | some user =>
      if User.verify_session_token user (String.mk ts) now then
        (Resp.success (RespBody.userData user) 200,
         db.filter (fun v => v.id != user.id))
      else (Resp.failure "Invalid session token" 404, db)

/-- Concrete registered user used by the witnesses. -/
def u0 : User :=
  { id := 1, name := "Alice A", username := "alice", email := "alice@cornell.edu",
    password_digest := Digest.bcryptDigest 13 0 "pw1",
    session_token := "s0", session_expiration := 100, refresh_token := "r0" }

/-- Concrete one-user store used by the witnesses. -/
def db1 : List User := [u0]

/-- C1: `verify_session_token(u, t)` is true iff `t` equals the stored
session token and the current time is strictly before the stored expiration;
a freshly issued session verifies immediately, and fails at or after its
expiration instant. -/
theorem C1_verify_session_token_spec (u : User) (t st rt : String) (now t2 : Nat)
    (h2 : now + oneDay ≤ t2) :
    (User.verify_session_token u t now = true ↔
      (t = u.session_token ∧ now < u.session_expiration))
    ∧ User.verify_session_token (User.renew_session u st rt now) st now = true
    ∧ User.verify_session_token (User.renew_session u st rt now) st t2 = false := by
  refine ⟨?_, ?_, ?_⟩
  · simp [User.verify_session_token]
  · simp [User.verify_session_token, User.renew_session, oneDay]
  · simp [User.verify_session_token, User.renew_session, oneDay] at h2 ⊢
    omega

/-- Witness for C1 at a concrete user and concrete times. -/
theorem C1_witness :
    (0 : Nat) + oneDay ≤ 86400 ∧
    ((User.verify_session_token u0 "s0" 0 = true ↔
       ("s0" = u0.session_token ∧ 0 < u0.session_expiration))
     ∧ User.verify_session_token (User.renew_session u0 "s1" "r1" 0) "s1" 0 = true
     ∧ User.verify_session_token (User.renew_session u0 "s1" "r1" 0) "s1" 86400 = false) :=
  ⟨by decide, C1_verify_session_token_spec u0 "s0" "s1" "r1" 0 86400 (by decide)⟩

/-- Concrete user whose stored digest is not valid bcrypt output, used to
exhibit the crash in `verify_password`. -/
def malformedUser : User :=
  { id := 9, name := "Mallory", username := "mallory", email := "m@cornell.edu",
    password_digest := Digest.malformed "garbage",
    session_token := "sm", session_expiration := 0, refresh_token := "rm" }

/-- C8: evaluating `verify_password` at a malformed stored digest shows the
code raising `ValueError("Invalid salt")` from `bcrypt.checkpw` instead of
returning false as the spec requires. -/
theorem C8_verify_password_crashes_on_malformed_digest :
    User.verify_password malformedUser "x" = Except.error "Invalid salt"
    ∧ User.verify_password malformedUser "x" ≠ Except.ok false := by
  refine ⟨rfl, ?_⟩
  simp [User.verify_password, malformedUser, bcrypt.checkpw]

/-- C7: under the idealized bcrypt model, a user created with password `pw`
verifies `pw` and rejects any other plaintext `q`. -/
theorem C7_password_roundtrip (id cost salt : Nat) (nm un em pw q st rt : String)
    (now : Nat) (hq : q ≠ pw) :
    User.verify_password (User.init id nm un em pw cost salt st rt now) pw = Except.ok true
    ∧ User.verify_password (User.init id nm un em pw cost salt st rt now) q = Except.ok false := by
  constructor
  · simp [User.init, User.renew_session, User.verify_password, bcrypt.checkpw, bcrypt.hashpw]
  · simp [User.init, User.renew_session, User.verify_password, bcrypt.checkpw, bcrypt.hashpw, hq]

/-- Witness for C7 at concrete plaintexts. -/
theorem C7_witness :
    User.verify_password (User.init 1 "A" "alice" "a@x" "pw1" 13 0 "s" "r" 0) "pw1" = Except.ok true
    ∧ User.verify_password (User.init 1 "A" "alice" "a@x" "pw1" 13 0 "s" "r" 0) "pw2" = Except.ok false :=
  C7_password_roundtrip 1 13 0 "A" "alice" "a@x" "pw1" "pw2" "s" "r" 0 (by decide)

/-- C9: issuing a fresh token pair supersedes the old session: with a fresh
session token the old one no longer verifies (at any time) while the new one
verifies immediately; the same holds through the `login` route, whose success
persists exactly the renewed user. -/
theorem C9_single_active_session (u : User) (st rt : String) (now t2 : Nat)
    (db : List User) (username pw : String)
    (hfresh : st ≠ u.session_token) :
    User.verify_session_token (User.renew_session u st rt now) u.session_token t2 = false
    ∧ User.verify_session_token (User.renew_session u st rt now) st now = true
    ∧ (∀ uL, get_user_by_username db username = some uL →
        User.verify_password uL pw = Except.ok true →
        st ≠ uL.session_token →
        app.login db st rt now (some username) (some pw)
          = (Resp.success (RespBody.tokens st (now + oneDay) rt) 200,
             update_user db uL.id (User.renew_session uL st rt now))
        ∧ User.verify_session_token (User.renew_session uL st rt now) uL.session_token t2 = false) := by
  refine ⟨?_, ?_, ?_⟩
  · simp [User.verify_session_token, User.renew_session]
    intro h
    exact absurd h.symm hfresh
  · simp [User.verify_session_token, User.renew_session, oneDay]
  · intro uL hfind hpw hfresh2
    constructor
    · simp [app.login, verify_credentials, hfind, hpw, User.renew_session, oneDay]
    · simp [User.verify_session_token, User.renew_session]
      intro h
      exact absurd h.symm hfresh2

/-- Witness for C9: a concrete login of alice with fresh tokens, showing the
old session token rejected and the new one accepted. -/
theorem C9_witness :
    User.verify_session_token (User.renew_session u0 "s1" "r1" 7) u0.session_token 7 = false
    ∧ User.verify_session_token (User.renew_session u0 "s1" "r1" 7) "s1" 7 = true
    ∧ (app.login db1 "s1" "r1" 7 (some "alice") (some "pw1")
        = (Resp.success (RespBody.tokens "s1" (7 + oneDay) "r1") 200,
           update_user db1 u0.id (User.renew_session u0 "s1" "r1" 7))
       ∧ User.verify_session_token (User.renew_session u0 "s1" "r1" 7) u0.session_token 7 = false) := by
  have h := C9_single_active_session u0 "s1" "r1" 7 7 db1 "alice" "pw1" (by decide)
  refine ⟨h.1, h.2.1, h.2.2 u0 (by decide) ?_ (by decide)⟩
  simp [User.verify_password, u0, bcrypt.checkpw]

/-- Replacing the first `find?`-hit of a store by a row still satisfying the
predicate (and with the same id, ids being unique) makes the replacement the
new first hit. -/
theorem update_user_find (p : User → Bool) (db : List User) (u u2 : User)
    (hfind : db.find? p = some u)
    (hid : ∀ v ∈ db, v.id = u.id → v = u)
    (hp2 : p u2 = true) :
    (update_user db u.id u2).find? p = some u2 := by
  induction db with
  | nil => simp at hfind
  | cons v rest ih =>
    by_cases hv : p v = true
    · rw [List.find?_cons_of_pos rest hv] at hfind
      have hvu : v = u := by injection hfind
      subst hvu
      have hstep : update_user (v :: rest) v.id u2 = u2 :: update_user rest v.id u2 := by
        simp [update_user]
      rw [hstep]
      exact List.find?_cons_of_pos _ hp2
    · rw [List.find?_cons_of_neg rest hv] at hfind
      have hvid : v.id ≠ u.id := by
        intro h
        have hvu := hid v (List.mem_cons_self v rest) h
        subst hvu
        exact hv (List.find?_some hfind)
      have hstep : update_user (v :: rest) u.id u2 = v :: update_user rest u.id u2 := by
        simp [update_user, hvid]
      rw [hstep, List.find?_cons_of_neg _ hv]
      exact ih hfind (fun w hw hwid => hid w (List.mem_cons_of_mem v hw) hwid)

/-- A session token is uniformly rejected when either no user owns it or the
owning user's verification fails (expired or mismatched). -/
def sessionRejected (db : List User) (tok : String) (now : Nat) : Prop :=
  ∀ u, get_user_by_session_token db tok = some u →
    User.verify_session_token u tok now = false

/-- C2: for any two requests whose extracted session tokens are rejected (not
found, mismatched, or expired), `logout` and `delete_user` both answer with
the identical `failure_response("Invalid session token")` (status 404) and
leave the store untouched, so the responses of any two rejected requests are
indistinguishable. -/
theorem C2_uniform_invalid_session_rejection
    (db db2 : List User) (h h2 : Option (List Char)) (ts ts2 : List Char)
    (now now2 : Nat)
    (he : extract_token h = ExtractResult.token ts)
    (he2 : extract_token h2 = ExtractResult.token ts2)
    (hr : sessionRejected db (String.mk ts) now)
    (hr2 : sessionRejected db2 (String.mk ts2) now2) :
    app.logout db h now = (Resp.failure "Invalid session token" 404, db)
    ∧ app.delete_user db2 h2 now2 = (Resp.failure "Invalid session token" 404, db2)
    ∧ (app.logout db h now).fst = (app.logout db2 h2 now2).fst
    ∧ (app.logout db h now).fst = (app.delete_user db2 h2 now2).fst := by
  have hlogout : ∀ (d : List User) (hh : Option (List Char)) (tt : List Char) (n : Nat),
      extract_token hh = ExtractResult.token tt → sessionRejected d (String.mk tt) n →
      app.logout d hh n = (Resp.failure "Invalid session token" 404, d) := by
    intro d hh tt n hex hrej
    unfold app.logout
    rw [hex]
    cases hfind : get_user_by_session_token d (String.mk tt) with
    | none => simp [hfind]
    | some user =>
      have := hrej user hfind
      simp [hfind, this]
  have hdelete : app.delete_user db2 h2 now2 = (Resp.failure "Invalid session token" 404, db2) := by
    unfold app.delete_user
    rw [he2]
    cases hfind : get_user_by_session_token db2 (String.mk ts2) with
    | none => simp [hfind]
    | some user =>
      have := hr2 user hfind
      simp [hfind, this]
  have h1 := hlogout db h ts now he hr
  have h2' := hlogout db2 h2 ts2 now2 he2 hr2
  exact ⟨h1, hdelete, by rw [h1, h2'], by rw [h1, hdelete]⟩

/-- Concrete user with an expired session, used by the C2 witness. -/
def uExpired : User :=
  { id := 2, name := "Bob B", username := "bob", email := "bob@cornell.edu",
    password_digest := Digest.bcryptDigest 13 1 "pw2",
    session_token := "sX", session_expiration := 10, refresh_token := "rX" }

/-- Concrete store holding only an expired session, used by the C2 witness. -/
def dbExpired : List User := [uExpired]

/-- Witness for C2: a token owned by nobody and an expired token of an
existing user draw the very same rejection from both routes. -/
theorem C2_witness :
    app.logout db1 (some ("zzz".toList)) 0 = (Resp.failure "Invalid session token" 404, db1)
    ∧ app.delete_user dbExpired (some ("sX".toList)) 20
        = (Resp.failure "Invalid session token" 404, dbExpired)
    ∧ (app.logout db1 (some ("zzz".toList)) 0).fst
        = (app.logout dbExpired (some ("sX".toList)) 20).fst
    ∧ (app.logout db1 (some ("zzz".toList)) 0).fst
        = (app.delete_user dbExpired (some ("sX".toList)) 20).fst := by
  refine C2_uniform_invalid_session_rejection db1 dbExpired
    (some ("zzz".toList)) (some ("sX".toList)) ("zzz".toList) ("sX".toList) 0 20
    (by decide) (by decide) ?_ ?_
  · intro u hu
    have hnone : get_user_by_session_token db1 (String.mk ("zzz".toList)) = none := by decide
    rw [hnone] at hu
    exact Option.noConfusion hu
  · intro u hu
    have hfind : get_user_by_session_token dbExpired (String.mk ("sX".toList)) = some uExpired := by
      decide
    rw [hfind] at hu
    injection hu with h
    subst h
    decide

/-- C4: a refresh token owned by no user makes the renewal route fail with
the 400 "Invalid refresh token" response and leaves the store untouched,
while a refresh token owned by a user yields that user a fresh persisted
session/refresh pair. -/
theorem C4_renew_session_route (db : List User) (h : Option (List Char))
    (ts : List Char) (st rt : String) (now : Nat)
    (he : extract_token h = ExtractResult.token ts) :
    ((∀ u ∈ db, u.refresh_token ≠ String.mk ts) →
       app.renew_session db h st rt now = (Resp.failure "Invalid refresh token" 400, db))
    ∧ (∀ u, get_user_by_refresh_token db (String.mk ts) = some u →
       app.renew_session db h st rt now
         = (Resp.success (RespBody.tokens st (now + oneDay) rt) 200,
            update_user db u.id (User.renew_session u st rt now))) := by
  constructor
  · intro hnone
    have hfind : get_user_by_refresh_token db (String.mk ts) = none := by
      simp only [get_user_by_refresh_token, List.find?_eq_none]
      intro x hx
      simp [hnone x hx]
    unfold app.renew_session users_dao.renew_session
    rw [he]
    simp [hfind]
  · intro u hfind
    unfold app.renew_session users_dao.renew_session
    rw [he]
    simp [hfind, User.renew_session]

/-- Witness for C4: an unknown refresh token is rejected without mutation,
and alice's real refresh token mints her a fresh persisted pair. -/
theorem C4_witness :
    app.renew_session db1 (some ("nobody".toList)) "s1" "r1" 3
      = (Resp.failure "Invalid refresh token" 400, db1)
    ∧ app.renew_session db1 (some ("r0".toList)) "s1" "r1" 3
      = (Resp.success (RespBody.tokens "s1" (3 + oneDay) "r1") 200,
         update_user db1 u0.id (User.renew_session u0 "s1" "r1" 3)) := by
  constructor
  · refine (C4_renew_session_route db1 (some ("nobody".toList)) ("nobody".toList)
      "s1" "r1" 3 (by decide)).1 ?_
    intro u hu
    have : u = u0 := by
      simpa [db1] using hu
    subst this
    decide
  · exact (C4_renew_session_route db1 (some ("r0".toList)) ("r0".toList)
      "s1" "r1" 3 (by decide)).2 u0 (by decide)

/-- C10: after a first successful logout, a second logout at any later (or
equal) time presenting the same session token is rejected with the uniform
404 "Invalid session token" response and changes nothing: the first logout
moved the expiration to the logout instant and verification requires the
current time to be strictly before it. -/
theorem C10_logout_not_idempotent (db : List User) (h : Option (List Char))
    (ts : List Char) (u : User) (t1 t2 : Nat)
    (he : extract_token h = ExtractResult.token ts)
    (hfind : get_user_by_session_token db (String.mk ts) = some u)
    (hver : User.verify_session_token u (String.mk ts) t1 = true)
    (hid : ∀ v ∈ db, v.id = u.id → v = u)
    (ht : t1 ≤ t2) :
    (app.logout db h t1).fst = Resp.success (RespBody.message "You have been logged out") 200
    ∧ app.logout (app.logout db h t1).snd h t2
        = (Resp.failure "Invalid session token" 404, (app.logout db h t1).snd) := by
  have h1 : app.logout db h t1
      = (Resp.success (RespBody.message "You have been logged out") 200,
         update_user db u.id { u with session_expiration := t1 }) := by
    unfold app.logout
    rw [he]
    simp [hfind, hver]
  have htok : String.mk ts = u.session_token := by
    simp [User.verify_session_token] at hver
    exact hver.1
  have hfind2 : get_user_by_session_token
      (update_user db u.id { u with session_expiration := t1 }) (String.mk ts)
      = some { u with session_expiration := t1 } := by
    unfold get_user_by_session_token at hfind ⊢
    refine update_user_find _ db u _ hfind hid ?_
    simp [htok]
  have hver2 : User.verify_session_token { u with session_expiration := t1 }
      (String.mk ts) t2 = false := by
    simp [User.verify_session_token]
    intro
    omega
  constructor
  · rw [h1]
  · rw [h1]
    unfold app.logout
    rw [he]
    simp [hfind2, hver2]

/-- Witness for C10: alice logs out at time 50; retrying the same logout at
time 60 is rejected and mutates nothing. -/
theorem C10_witness :
    (app.logout db1 (some ("Bearer s0".toList)) 50).fst
      = Resp.success (RespBody.message "You have been logged out") 200
    ∧ app.logout (app.logout db1 (some ("Bearer s0".toList)) 50).snd
        (some ("Bearer s0".toList)) 60
        = (Resp.failure "Invalid session token" 404,
           (app.logout db1 (some ("Bearer s0".toList)) 50).snd) := by
  refine C10_logout_not_idempotent db1 (some ("Bearer s0".toList)) ("s0".toList)
    u0 50 60 (by decide) (by decide) (by decide) ?_ (by decide)
  intro v hv _
  simpa [db1] using hv

/-- C5 counterexample: logging alice out at time 50 succeeds and stores 50 as
the new `session_expiration` - the logout instant itself, not a timestamp
strictly in the past, refuting the claim that logout sets the expiration to a
past timestamp. -/
theorem C5_counterexample :
    (app.logout db1 (some ("Bearer s0".toList)) 50).fst
      = Resp.success (RespBody.message "You have been logged out") 200
    ∧ (app.logout db1 (some ("Bearer s0".toList)) 50).snd
      = [{ u0 with session_expiration := 50 }]
    ∧ ((app.logout db1 (some ("Bearer s0".toList)) 50).snd.all
        (fun v => decide (v.session_expiration < 50))) = false := by
  decide

/-- C5 (amended): a successful logout changes only `session_expiration`,
setting it to the logout instant (never later); the old session token then
fails verification at every time at or after the logout, while renewal with
the unchanged refresh token still succeeds, persists and yields a session
whose new token verifies. -/
theorem C5_logout_frame_and_refresh (db : List User) (h : Option (List Char))
    (ts : List Char) (u : User) (now t2 now2 : Nat) (st2 rt2 : String)
    (he : extract_token h = ExtractResult.token ts)
    (hfind : get_user_by_session_token db (String.mk ts) = some u)
    (hver : User.verify_session_token u (String.mk ts) now = true)
    (hfindr : get_user_by_refresh_token db u.refresh_token = some u)
    (hid : ∀ v ∈ db, v.id = u.id → v = u)
    (ht2 : now ≤ t2) :
    app.logout db h now
      = (Resp.success (RespBody.message "You have been logged out") 200,
         update_user db u.id { u with session_expiration := now })
    ∧ ({ u with session_expiration := now } : User).session_token = u.session_token
    ∧ ({ u with session_expiration := now } : User).refresh_token = u.refresh_token
    ∧ ({ u with session_expiration := now } : User).session_expiration = now
    ∧ User.verify_session_token { u with session_expiration := now } u.session_token t2 = false
    ∧ users_dao.renew_session (update_user db u.id { u with session_expiration := now })
        u.refresh_token st2 rt2 now2
      = Except.ok (User.renew_session { u with session_expiration := now } st2 rt2 now2,
          update_user (update_user db u.id { u with session_expiration := now }) u.id
            (User.renew_session { u with session_expiration := now } st2 rt2 now2))
    ∧ User.verify_session_token
        (User.renew_session { u with session_expiration := now } st2 rt2 now2) st2 now2 = true := by
  have h1 : app.logout db h now
      = (Resp.success (RespBody.message "You have been logged out") 200,
         update_user db u.id { u with session_expiration := now }) := by
    unfold app.logout
    rw [he]
    simp [hfind, hver]
  have hfindr2 : get_user_by_refresh_token
      (update_user db u.id { u with session_expiration := now }) u.refresh_token
      = some { u with session_expiration := now } := by
    unfold get_user_by_refresh_token at hfindr ⊢
    exact update_user_find _ db u _ hfindr hid (by simp)
  refine ⟨h1, rfl, rfl, rfl, ?_, ?_, ?_⟩
  · simp [User.verify_session_token]
    omega
  · unfold users_dao.renew_session
    rw [hfindr2]
  · simp [User.verify_session_token, User.renew_session, oneDay]

/-- Witness for C5: alice logs out at time 50 and renews at time 60 with her
unchanged refresh token, obtaining a session valid again. -/
theorem C5_witness :
    app.logout db1 (some ("Bearer s0".toList)) 50
      = (Resp.success (RespBody.message "You have been logged out") 200,
         update_user db1 u0.id { u0 with session_expiration := 50 })
    ∧ ({ u0 with session_expiration := 50 } : User).session_token = u0.session_token
    ∧ ({ u0 with session_expiration := 50 } : User).refresh_token = u0.refresh_token
    ∧ ({ u0 with session_expiration := 50 } : User).session_expiration = 50
    ∧ User.verify_session_token { u0 with session_expiration := 50 } u0.session_token 60 = false
    ∧ users_dao.renew_session (update_user db1 u0.id { u0 with session_expiration := 50 })
        u0.refresh_token "s9" "r9" 60
      = Except.ok (User.renew_session { u0 with session_expiration := 50 } "s9" "r9" 60,
          update_user (update_user db1 u0.id { u0 with session_expiration := 50 }) u0.id
            (User.renew_session { u0 with session_expiration := 50 } "s9" "r9" 60))
    ∧ User.verify_session_token
        (User.renew_session { u0 with session_expiration := 50 } "s9" "r9" 60) "s9" 60 = true := by
  refine C5_logout_frame_and_refresh db1 (some ("Bearer s0".toList)) ("s0".toList)
    u0 50 60 60 "s9" "r9" (by decide) (by decide) (by decide) (by decide) ?_ (by decide)
  intro v hv _
  simpa [db1] using hv

/-- C3 counterexample: registering a fresh username with an email already
taken by alice does not produce a 400 error - the username pre-check passes
and the insert dies on the email unique constraint, an uncaught
`IntegrityError` (Flask 500). -/
theorem C3_counterexample :
    (app.register_user db1 2 13 1 "s2" "r2" 0
        (some "Bob") (some "bob") (some "alice@cornell.edu") (some "pw2")).fst
      = Resp.serverError "IntegrityError"
    ∧ Resp.isFailureWithCode
        (app.register_user db1 2 13 1 "s2" "r2" 0
          (some "Bob") (some "bob") (some "alice@cornell.edu") (some "pw2")).fst 400 = false := by
  decide

/-- C3 (amended): registration yields the 400 "Invalid body" when any of the
four fields is absent and the 400 "User already exists" when the username is
already taken, in both cases leaving the store (including the first user's
tokens) unchanged; a duplicate email under a fresh username instead escapes
as an uncaught IntegrityError, also without mutating the store. -/
theorem C3_register_validation (db : List User) (freshId cost salt : Nat)
    (st rt : String) (now : Nat) (name username email password : Option String) :
    ((name = none ∨ username = none ∨ email = none ∨ password = none) →
       app.register_user db freshId cost salt st rt now name username email password
         = (Resp.failure "Invalid body" 400, db))
    ∧ (∀ n un em pw u, name = some n → username = some un → email = some em →
        password = some pw → get_user_by_username db un = some u →
        app.register_user db freshId cost salt st rt now name username email password
          = (Resp.failure "User already exists" 400, db))
    ∧ (∀ n un em pw, name = some n → username = some un → email = some em →
        password = some pw → get_user_by_username db un = none →
        (∃ v ∈ db, v.email = em) →
        app.register_user db freshId cost salt st rt now name username email password
          = (Resp.serverError "IntegrityError", db)) := by
  refine ⟨?_, ?_, ?_⟩
  · intro hmiss
    rcases hmiss with hh | hh | hh | hh
    · subst hh
      cases username <;> cases email <;> cases password <;> rfl
    · subst hh
      cases name <;> cases email <;> cases password <;> rfl
    · subst hh
      cases name <;> cases username <;> cases password <;> rfl
    · subst hh
      cases name <;> cases username <;> cases email <;> rfl
  · intro n un em pw u hn hun hem hpw hfind
    subst hn
    subst hun
    subst hem
    subst hpw
    simp [app.register_user, create_user, hfind]
  · intro n un em pw hn hun hem hpw hfind hmail
    subst hn
    subst hun
    subst hem
    subst hpw
    obtain ⟨v, hv, hvem⟩ := hmail
    have hany : db.any (fun w =>
        w.username == (User.init freshId n un em pw cost salt st rt now).username
        || w.email == (User.init freshId n un em pw cost salt st rt now).email) = true := by
      rw [List.any_eq_true]
      refine ⟨v, hv, ?_⟩
      simp [User.init, User.renew_session, hvem]
    simp [app.register_user, create_user, hfind, commit_insert, hany]

/-- Witness for C3 (amended): a missing username and a duplicate username
each draw their 400 without touching the one-user store, and a duplicate
email escapes as the IntegrityError. -/
theorem C3_witness :
    app.register_user db1 2 13 1 "s2" "r2" 0 (some "Bob") none (some "b@x") (some "pw2")
      = (Resp.failure "Invalid body" 400, db1)
    ∧ app.register_user db1 2 13 1 "s2" "r2" 0
        (some "Alice2") (some "alice") (some "other@x") (some "pw9")
      = (Resp.failure "User already exists" 400, db1)
    ∧ app.register_user db1 2 13 1 "s2" "r2" 0
        (some "Bob") (some "bob") (some "alice@cornell.edu") (some "pw2")
      = (Resp.serverError "IntegrityError", db1) := by
  refine ⟨?_, ?_, ?_⟩
  · exact (C3_register_validation db1 2 13 1 "s2" "r2" 0
      (some "Bob") none (some "b@x") (some "pw2")).1 (Or.inr (Or.inl rfl))
  · exact (C3_register_validation db1 2 13 1 "s2" "r2" 0
      (some "Alice2") (some "alice") (some "other@x") (some "pw9")).2.1
      "Alice2" "alice" "other@x" "pw9" u0 rfl rfl rfl rfl (by decide)
  · refine (C3_register_validation db1 2 13 1 "s2" "r2" 0
      (some "Bob") (some "bob") (some "alice@cornell.edu") (some "pw2")).2.2
      "Bob" "bob" "alice@cornell.edu" "pw2" rfl rfl rfl rfl (by decide) ?_
    exact ⟨u0, by simp [db1], rfl⟩

/-- Scanning a string containing no 'B' removes nothing: the pattern
"Bearer" cannot start anywhere. -/
theorem replaceAllAux_no_B (fuel : Nat) (s : List Char)
    (hs : ∀ c ∈ s, c ≠ 'B') : replaceAllAux bearerPat fuel s = s := by
  induction fuel generalizing s with
  | zero => cases s <;> rfl
  | succ f ih =>
    cases s with
    | nil => rfl
    | cons c rest =>
      have hc : ('B' == c) = false :=
        beq_eq_false_iff_ne.mpr (fun hh => hs c (List.mem_cons_self c rest) hh.symm)
      have hpre : bearerPat.isPrefixOf (c :: rest) = false := by
        simp [bearerPat, List.isPrefixOf, hc]
      simp only [replaceAllAux, hpre, Bool.false_eq_true, if_false]
      exact congrArg (List.cons c)
        (ih rest (fun d hd => hs d (List.mem_cons_of_mem c hd)))

/-- One scanning step across a leading "Bearer" occurrence skips it. -/
theorem replaceAllAux_bearer_step (f : Nat) (w : List Char) :
    replaceAllAux bearerPat (f + 1) ('B' :: 'e' :: 'a' :: 'r' :: 'e' :: 'r' :: w)
      = replaceAllAux bearerPat f w := by
  have hpre : bearerPat.isPrefixOf ('B' :: 'e' :: 'a' :: 'r' :: 'e' :: 'r' :: w) = true := by
    simp [bearerPat, List.isPrefixOf]
  simp [replaceAllAux, hpre, bearerPat]

/-- Removing "Bearer" from "Bearer" followed by B-free text leaves exactly
that text. -/
theorem replaceAll_bearer (w : List Char) (hw : ∀ c ∈ w, c ≠ 'B') :
    replaceAll bearerPat (bearerPat ++ w) = w := by
  unfold replaceAll
  have hlist : bearerPat ++ w = 'B' :: 'e' :: 'a' :: 'r' :: 'e' :: 'r' :: w := rfl
  rw [hlist]
  have hlen : ('B' :: 'e' :: 'a' :: 'r' :: 'e' :: 'r' :: w).length = w.length + 5 + 1 := by
    simp
  rw [hlen, replaceAllAux_bearer_step]
  exact replaceAllAux_no_B _ w hw

/-- Dropping while a predicate that holds nowhere drops nothing. -/
theorem dropWhile_of_all_false (p : Char → Bool) (l : List Char)
    (h : ∀ c ∈ l, p c = false) : l.dropWhile p = l := by
  cases l with
  | nil => rfl
  | cons c rest => simp [List.dropWhile, h c (List.mem_cons_self c rest)]

/-- Dropping while a predicate that holds everywhere drops everything. -/
theorem dropWhile_of_all_true (p : Char → Bool) (l : List Char)
    (h : ∀ c ∈ l, p c = true) : l.dropWhile p = [] := by
  induction l with
  | nil => rfl
  | cons c rest ih =>
    simp [List.dropWhile, h c (List.mem_cons_self c rest)]
    exact fun d hd => h d (List.mem_cons_of_mem c hd)

/-- Stripping text without surrounding whitespace is the identity. -/
theorem stripChars_of_clean (t : List Char)
    (h : ∀ c ∈ t, pyIsSpace c = false) : stripChars t = t := by
  unfold stripChars
  rw [dropWhile_of_all_false _ _ h,
      dropWhile_of_all_false _ _ (fun c hc => h c (List.mem_reverse.mp hc)),
      List.reverse_reverse]

/-- Stripping all-whitespace text yields the empty string. -/
theorem stripChars_of_all_space (t : List Char)
    (h : ∀ c ∈ t, pyIsSpace c = true) : stripChars t = [] := by
  unfold stripChars
  rw [dropWhile_of_all_true _ _ h]
  rfl

/-- C6 counterexample: a header consisting of a bare token with no Bearer
scheme prefix at all is accepted and returned unchanged, refuting the claim
that a Bearer prefix is required for success. -/
theorem C6_counterexample :
    extract_token (some ("mytoken".toList)) = ExtractResult.token ("mytoken".toList)
    ∧ ("mytoken".toList).take 6 ≠ bearerPat := by
  decide

/-- C6 (amended): extraction returns the missing-header failure exactly when
the Authorization header is absent; a header that is "Bearer" followed by
whitespace only yields the distinct malformed-header failure; and a non-empty
remainder is returned as the token whether or not a Bearer prefix is present,
since the code merely deletes every occurrence of the substring "Bearer" and
trims whitespace. -/
theorem C6_extract_token_behavior :
    extract_token none = ExtractResult.missingHeader
    ∧ (∀ h, extract_token (some h) ≠ ExtractResult.missingHeader)
    ∧ (∀ w, (∀ c ∈ w, pyIsSpace c = true) →
        extract_token (some (bearerPat ++ w)) = ExtractResult.malformedHeader)
    ∧ (∀ t, t ≠ [] → (∀ c ∈ t, pyIsSpace c = false ∧ c ≠ 'B') →
        extract_token (some t) = ExtractResult.token t
        ∧ extract_token (some (bearerPat ++ ' ' :: t)) = ExtractResult.token t) := by
  refine ⟨rfl, ?_, ?_, ?_⟩
  · intro h
    simp only [extract_token]
    cases hb : (stripChars (replaceAll bearerPat h)).isEmpty <;> simp [hb]
  · intro w hw
    have hnoB : ∀ c ∈ w, c ≠ 'B' := by
      intro c hc hB
      have := hw c hc
      rw [hB] at this
      exact absurd this (by decide)
    simp only [extract_token]
    rw [replaceAll_bearer w hnoB, stripChars_of_all_space w hw]
    rfl
  · intro t ht hclean
    have hempty : t.isEmpty = false := by
      cases t with
      | nil => exact absurd rfl ht
      | cons c rest => rfl
    have h1 : replaceAll bearerPat t = t := by
      unfold replaceAll
      exact replaceAllAux_no_B _ _ (fun c hc => (hclean c hc).2)
    have h2 : stripChars t = t := stripChars_of_clean t (fun c hc => (hclean c hc).1)
    constructor
    · simp only [extract_token, h1, h2]
      simp [hempty]
    · have h3 : replaceAll bearerPat (bearerPat ++ ' ' :: t) = ' ' :: t := by
        refine replaceAll_bearer (' ' :: t) ?_
        intro c hc
        cases hc with
        | head => decide
        | tail _ hc2 => exact (hclean c hc2).2
      have h4 : stripChars (' ' :: t) = t := by
        unfold stripChars
        have h5 : List.dropWhile pyIsSpace (' ' :: t) = List.dropWhile pyIsSpace t := by
          simp [List.dropWhile, pyIsSpace]
        rw [h5, dropWhile_of_all_false _ _ (fun c hc => (hclean c hc).1),
            dropWhile_of_all_false _ _
              (fun c hc => (hclean c (List.mem_reverse.mp hc)).1),
            List.reverse_reverse]
      simp only [extract_token, h3, h4]
      simp [hempty]

/-- Witness for C6: the absent header, the all-whitespace remainder
"Bearer   ", a bare token "tok", and the Bearer-prefixed "Bearer tok". -/
theorem C6_witness :
    extract_token none = ExtractResult.missingHeader
    ∧ extract_token (some ("Bearer   ".toList)) = ExtractResult.malformedHeader
    ∧ extract_token (some ("tok".toList)) = ExtractResult.token ("tok".toList)
    ∧ extract_token (some ("Bearer tok".toList)) = ExtractResult.token ("tok".toList) := by
  have h := C6_extract_token_behavior
  refine ⟨h.1, ?_, ?_, ?_⟩
  · have e1 : ("Bearer   ".toList) = bearerPat ++ ("   ".toList) := by decide
    rw [e1]
    exact h.2.2.1 ("   ".toList) (by decide)
  · exact (h.2.2.2 ("tok".toList) (by decide) (by decide)).1
  · have e2 : ("Bearer tok".toList) = bearerPat ++ ' ' :: ("tok".toList) := by decide
    rw [e2]
    exact (h.2.2.2 ("tok".toList) (by decide) (by decide)).2
